import Mathlib

/-!
Shallow embedding of the fleet-management core
(`src/models/nav_graph.py`, `src/models/robot.py`,
`src/controllers/fleet_manager.py`, `src/controllers/traffic_manager.py`).

Vertices and lanes are kept as positional lists, exactly as in the Python
source (`self.vertices`, `self.lanes`); a vertex id is its list index.
The 2-D floating-point position of a moving robot is represented by the
remaining Euclidean distance `distToTarget` to its `target_position`:
the source moves the position by a fixed-length step straight toward a
fixed target, so the whole continuous state observable by the state
machine is this remaining distance (a step of length `s` toward the
target shrinks the distance by exactly `s`, and the arrival test
`distance < move_speed` reads only this scalar).  Distances are rational.
The scaled screen distance between two vertices is supplied by the graph
field `vdist`, standing for the distance between the two
`get_scaled_position` results.
-/

namespace FleetSim

/-- A vertex record, as built by `NavGraph.load_from_json`: coordinates,
name, charger flag and the mutable `occupying_robot` slot. -/
structure Vertex where
  x : ℚ
  y : ℚ
  name : String
  isCharger : Bool
  occupying_robot : Option Nat
  deriving Repr, DecidableEq

/-- A lane record, as built by `NavGraph.load_from_json`: directed pair of
vertex ids, advisory speed limit, mutable occupancy and manual block flag. -/
structure Lane where
  from_vertex : Nat
  to_vertex : Nat
  speed_limit : ℚ
  occupying_robot : Option Nat
  is_blocked : Bool
  deriving Repr, DecidableEq

/-- The topology and reservation store (`NavGraph`).  `vdist u v` stands for
the Euclidean distance between `get_scaled_position u` and
`get_scaled_position v`. -/
structure NavGraph where
  vertices : List Vertex
  lanes : List Lane
  vdist : Nat → Nat → ℚ

/-- `NavGraph.reserve_vertex`: succeeds and writes the occupant iff the
vertex is currently unoccupied.  An out-of-range id raises in Python; the
embedding returns failure there and all claims restrict to in-range ids. -/
def reserve_vertex (g : NavGraph) (vertex_id robot_id : Nat) : Bool × NavGraph :=
  match g.vertices[vertex_id]? with
  | none => (false, g)
  | some v =>
    match v.occupying_robot with
    | none =>
      (true, { g with vertices := g.vertices.set vertex_id { v with occupying_robot := some robot_id } })
    | some _ => (false, g)

/-- `NavGraph.release_vertex`: clears the occupant iff it equals `robot_id`. -/
def release_vertex (g : NavGraph) (vertex_id robot_id : Nat) : NavGraph :=
  match g.vertices[vertex_id]? with
  | none => g
  | some v =>
    if v.occupying_robot = some robot_id then
      { g with vertices := g.vertices.set vertex_id { v with occupying_robot := none } }
    else g

/-- The loop body of `NavGraph.reserve_lane`: scan the lane list in order;
the first lane matching `(from_vertex, to_vertex)` decides the outcome
(`return True` after writing, or `return False`), later lanes are not
inspected. -/
def reserve_lane_list (lanes : List Lane) (f t robot_id : Nat) : Bool × List Lane :=
  match lanes with
  | [] => (false, [])
  | l :: rest =>
    if l.from_vertex = f ∧ l.to_vertex = t then
      if l.occupying_robot = none ∧ l.is_blocked = false then
        (true, { l with occupying_robot := some robot_id } :: rest)
      else
        (false, l :: rest)
    else
      let q := reserve_lane_list rest f t robot_id
      (q.1, l :: q.2)

/-- `NavGraph.reserve_lane`. -/
def reserve_lane (g : NavGraph) (f t robot_id : Nat) : Bool × NavGraph :=
  let q := reserve_lane_list g.lanes f t robot_id
  (q.1, { g with lanes := q.2 })

/-- `NavGraph.release_lane`: the Python loop has no break, so every lane
matching the key whose occupant equals `robot_id` is cleared. -/
def release_lane (g : NavGraph) (f t robot_id : Nat) : NavGraph :=
  { g with lanes := g.lanes.map (fun l =>
      if l.from_vertex = f ∧ l.to_vertex = t ∧ l.occupying_robot = some robot_id then
        { l with occupying_robot := none }
      else l) }

/-- Successor vertices of `u`, in lane-list order (`nx.DiGraph` adjacency
built by `load_from_json`). -/
def neighbors (lanes : List Lane) (u : Nat) : List Nat :=
  (lanes.filter (fun l => l.from_vertex = u)).map (fun l => l.to_vertex)

/-- Fuel-bounded breadth-first search returning a minimum-hop path, the
semantics of `nx.shortest_path` on the lane digraph.  The queue holds
reversed partial paths. -/
def bfsLoop (lanes : List Lane) (target : Nat) :
    Nat → List (List Nat) → List Nat → Option (List Nat)
  | 0, _, _ => none
  | _ + 1, [], _ => none
  | fuel + 1, p :: queue, visited =>
    match p with
    | [] => bfsLoop lanes target fuel queue visited
    | u :: _ =>
      if u = target then some p.reverse
      else
        let fresh := (neighbors lanes u).filter (fun v => ¬ visited.contains v)
        bfsLoop lanes target fuel (queue ++ fresh.map (fun v => v :: p)) (visited ++ fresh)

/-- `NavGraph.get_shortest_path`: minimum-hop path between two vertex ids,
`none` when the destination is unreachable.  `nx.shortest_path` first
requires both endpoints to be nodes of the graph (ids below the vertex
count); in particular for `start = end` it returns the one-element path. -/
def get_shortest_path (g : NavGraph) (start_vertex end_vertex : Nat) : Option (List Nat) :=
  if start_vertex < g.vertices.length ∧ end_vertex < g.vertices.length then
    bfsLoop g.lanes end_vertex
      ((g.vertices.length + g.lanes.length) * (g.vertices.length + 1) + 1)
      [[start_vertex]] [start_vertex]
  else none

/-- The five robot states (`Robot.IDLE` … `Robot.COMPLETED`). -/
inductive RobotState where
  | idle
  | moving
  | waiting
  | charging
  | completed
  deriving Repr, DecidableEq

/-- The event labels carried by the status dictionary `Robot.update` returns. -/
inductive RobotEvent where
  | started_charging
  | moving_to (v : Nat)
  | waiting_for_lane_to (v : Nat)
  | reached_destination
  | arrived_at (v : Nat)
  deriving Repr, DecidableEq

/-- The status dictionary returned by `Robot.update`: robot id, reported
state, the `position` entry (the current vertex at entry, never rewritten)
and the optional event label. -/
structure Status where
  robot_id : Nat
  state : RobotState
  position : Nat
  event : Option RobotEvent
  deriving Repr, DecidableEq

/-- A robot (`Robot`), with the continuous 2-D `position` / `target_position`
pair represented by the remaining distance `distToTarget` (see the file
header).  `move_speed` is fixed at 2 by the constructor. -/
structure Robot where
  id : Nat
  current_vertex : Nat
  color : Nat × Nat × Nat
  state : RobotState
  path : List Nat
  current_path_index : Nat
  target_vertex : Option Nat
  distToTarget : ℚ
  move_speed : ℚ
  deriving Repr, DecidableEq

/-- `is_charger` of the robot's current vertex, read by `Robot.update`
(`self.nav_graph.vertices[self.current_vertex].get('is_charger', False)`). -/
def isChargerAt (g : NavGraph) (vertex_id : Nat) : Bool :=
  ((g.vertices[vertex_id]?).map (fun v => v.isCharger)).getD false

/-- `Robot.__init__`: set up the fields and reserve the start vertex
(result ignored).  At construction `position = target_position`, so the
remaining distance is 0. -/
def robotInit (robot_id start_vertex : Nat) (g : NavGraph) (color : Nat × Nat × Nat) :
    Robot × NavGraph :=
  (⟨robot_id, start_vertex, color, RobotState.idle, [], 0, none, 0, 2⟩,
    (reserve_vertex g start_vertex robot_id).2)

/-- `Robot.assign_task`: allowed only in `Idle` or `Completed`; fails with
no state change when no path exists; on success installs the path and
forces `Idle`. -/
def assign_task (r : Robot) (g : NavGraph) (destination_vertex : Nat) : Bool × Robot :=
  if r.state ≠ RobotState.idle ∧ r.state ≠ RobotState.completed then
    (false, r)
  else
    match get_shortest_path g r.current_vertex destination_vertex with
    | none => (false, r)
    | some p =>
      (true, { r with path := p, current_path_index := 0,
                      target_vertex := some destination_vertex,
                      state := RobotState.idle })

/-- `Robot.update(delta_time)`: one state-machine step.  `delta_time` is
accepted but never read; motion is the fixed step `move_speed`.  Mirrors
the source branch for branch: the idle-at-charger check first, then the
`self.path and self.current_path_index < len(self.path) - 1` guard, then
the dispatch on the current state. -/
def update (r : Robot) (g : NavGraph) (delta_time : ℚ) : Robot × NavGraph × Status :=
  if r.state = RobotState.idle ∧ isChargerAt g r.current_vertex then
    ({ r with state := RobotState.charging }, g,
      ⟨r.id, RobotState.charging, r.current_vertex, some RobotEvent.started_charging⟩)
  else if r.path ≠ [] ∧ r.current_path_index < r.path.length - 1 then
    if r.state = RobotState.idle ∨ r.state = RobotState.charging then
      let next_vertex := r.path.getD (r.current_path_index + 1) 0
      let q := reserve_lane g r.current_vertex next_vertex r.id
      if q.1 then
        ({ r with state := RobotState.moving,
                  distToTarget := g.vdist r.current_vertex next_vertex },
          release_vertex q.2 r.current_vertex r.id,
          ⟨r.id, RobotState.moving, r.current_vertex, some (RobotEvent.moving_to next_vertex)⟩)
      else
        ({ r with state := RobotState.waiting }, q.2,
          ⟨r.id, RobotState.waiting, r.current_vertex,
            some (RobotEvent.waiting_for_lane_to next_vertex)⟩)
    else if r.state = RobotState.moving then
      if r.distToTarget < r.move_speed then
        let idx2 := r.current_path_index + 1
        let next_vertex := r.path.getD idx2 0
        let prev_vertex := r.path.getD (idx2 - 1) 0
        let g2 := (reserve_vertex (release_lane g prev_vertex next_vertex r.id) next_vertex r.id).2
        if idx2 = r.path.length - 1 then
          ({ r with current_path_index := idx2, current_vertex := next_vertex,
                    distToTarget := 0, state := RobotState.completed }, g2,
            ⟨r.id, RobotState.completed, r.current_vertex, some RobotEvent.reached_destination⟩)
        else
          ({ r with current_path_index := idx2, current_vertex := next_vertex,
                    distToTarget := 0, state := RobotState.idle }, g2,
            ⟨r.id, RobotState.idle, r.current_vertex, some (RobotEvent.arrived_at next_vertex)⟩)
      else
        ({ r with distToTarget := r.distToTarget - r.move_speed }, g,
          ⟨r.id, r.state, r.current_vertex, none⟩)
    else if r.state = RobotState.waiting then
      let next_vertex := r.path.getD (r.current_path_index + 1) 0
      let q := reserve_lane g r.current_vertex next_vertex r.id
      if q.1 then
        ({ r with state := RobotState.moving,
                  distToTarget := g.vdist r.current_vertex next_vertex },
          release_vertex q.2 r.current_vertex r.id,
          ⟨r.id, RobotState.moving, r.current_vertex, some (RobotEvent.moving_to next_vertex)⟩)
      else
        (r, q.2, ⟨r.id, r.state, r.current_vertex, none⟩)
    else
      (r, g, ⟨r.id, r.state, r.current_vertex, none⟩)
  else
    (r, g, ⟨r.id, r.state, r.current_vertex, none⟩)

/-- `n` consecutive ticks of one robot against the store (status discarded). -/
def updateIter (d : ℚ) : Nat → Robot × NavGraph → Robot × NavGraph
  | 0, p => p
  | n + 1, p => updateIter d n ((update p.1 p.2 d).1, (update p.1 p.2 d).2.1)

/-- `FleetManager.robot_colors`. -/
def robot_colors : List (Nat × Nat × Nat) :=
  [(255, 0, 0), (0, 255, 0), (0, 0, 255), (255, 255, 0), (255, 0, 255),
   (0, 255, 255), (255, 128, 0), (128, 0, 128), (0, 128, 0), (128, 128, 0),
   (128, 0, 0), (0, 128, 128)]

/-- The fleet registry: robots in insertion (= dict iteration) order, plus
the sequential id counter. -/
structure FleetManager where
  robots : List Robot
  next_robot_id : Nat
  deriving Repr, DecidableEq

/-- `FleetManager.spawn_robot`: refuse when the vertex is occupied,
otherwise construct a robot with the next sequential id (the constructor
reserves the vertex), register it and bump the counter. -/
def spawn_robot (fm : FleetManager) (g : NavGraph) (vertex_id : Nat) :
    Option Nat × FleetManager × NavGraph :=
  match g.vertices[vertex_id]? with
  | none => (none, fm, g)
  | some v =>
    if v.occupying_robot ≠ none then
      (none, fm, g)
    else
      let color := robot_colors.getD (fm.next_robot_id % robot_colors.length) (0, 0, 0)
      let q := robotInit fm.next_robot_id vertex_id g color
      (some fm.next_robot_id, ⟨fm.robots ++ [q.1], fm.next_robot_id + 1⟩, q.2)

/-- `TrafficManager.resolve_deadlocks`: pick the first robot in registry
order whose state is `Waiting`; if it still has a hop to make, clear every
lane on its next hop's key that is occupied (the Python loop has no break
and counts each clearing). -/
def resolve_deadlocks (robots : List Robot) (g : NavGraph) : Nat × NavGraph :=
  match robots.filter (fun r => r.state = RobotState.waiting) with
  | [] => (0, g)
  | robot :: _ =>
    if robot.path ≠ [] ∧ robot.current_path_index < robot.path.length - 1 then
      let next_vertex := robot.path.getD (robot.current_path_index + 1) 0
      (g.lanes.countP (fun l =>
          decide (l.from_vertex = robot.current_vertex ∧ l.to_vertex = next_vertex ∧
            l.occupying_robot ≠ none)),
        { g with lanes := g.lanes.map (fun l =>
            if l.from_vertex = robot.current_vertex ∧ l.to_vertex = next_vertex ∧
                l.occupying_robot ≠ none then
              { l with occupying_robot := none }
            else l) })
    else (0, g)

/-- Pairwise-distinct `(from_vertex, to_vertex)` keys: the structural
well-formedness of the lane list (one directed edge per ordered pair, as
in the `nx.DiGraph` the loader builds alongside the list). -/
def laneKeysNodup (lanes : List Lane) : Prop :=
  (lanes.map (fun l => (l.from_vertex, l.to_vertex))).Nodup

/-! Concrete fixtures: a 3-vertex line graph with both lane directions
between neighbours, one robot parked at vertex 0, lane 1→0 held by
robot 7, and vertex 2 a charger. -/

def sampleVerts : List Vertex :=
  [⟨0, 0, "v0", false, some 0⟩, ⟨1, 0, "v1", false, none⟩, ⟨2, 0, "v2", true, none⟩]

def sampleLanes : List Lane :=
  [⟨0, 1, 0, none, false⟩, ⟨1, 2, 0, none, false⟩, ⟨1, 0, 0, some 7, false⟩, ⟨2, 1, 0, none, false⟩]

def sampleGraph : NavGraph :=
  ⟨sampleVerts, sampleLanes, fun _ _ => 5⟩

def idleRobot : Robot :=
  ⟨0, 0, (255, 0, 0), RobotState.idle, [], 0, none, 0, 2⟩

def movingRobot : Robot :=
  ⟨0, 0, (255, 0, 0), RobotState.moving, [0, 1, 2], 0, some 2, 1, 2⟩

def farMovingRobot : Robot :=
  ⟨0, 0, (255, 0, 0), RobotState.moving, [0, 1, 2], 0, some 2, 9, 2⟩

def waitingRobot : Robot :=
  ⟨1, 1, (0, 255, 0), RobotState.waiting, [1, 0], 0, some 0, 0, 2⟩

def chargingRobot : Robot :=
  ⟨2, 2, (0, 0, 255), RobotState.charging, [], 0, none, 0, 2⟩

def emptyFleet : FleetManager :=
  ⟨[], 0⟩

/-! ### Theorems -/

/-- Claim C4: for every vertex id present in the store and every agent id,
`reserve_vertex` returns true and writes the agent as occupant iff the
vertex is currently unoccupied; otherwise it returns false and leaves the
entire store unchanged. -/
theorem reserve_vertex_spec (g : NavGraph) (vid rid : Nat) (v : Vertex)
    (h : g.vertices[vid]? = some v) :
    (v.occupying_robot = none →
      reserve_vertex g vid rid =
        (true, { g with vertices := g.vertices.set vid { v with occupying_robot := some rid } })) ∧
    (v.occupying_robot ≠ none → reserve_vertex g vid rid = (false, g)) := by
  constructor
  · intro ho
    simp [reserve_vertex, h, ho]
  · intro ho
    cases hv : v.occupying_robot with
    | none => exact absurd hv ho
    | some a => simp [reserve_vertex, h, hv]

/-- Witness for C4: reserving the free vertex 1 of the sample graph for
agent 5 succeeds and writes the occupant. -/
theorem reserve_vertex_spec_witness :
    sampleGraph.vertices[1]? = some ⟨1, 0, "v1", false, none⟩ ∧
    reserve_vertex sampleGraph 1 5 =
      (true, { sampleGraph with vertices :=
        sampleGraph.vertices.set 1 ⟨1, 0, "v1", false, some 5⟩ }) :=
  ⟨rfl, (reserve_vertex_spec sampleGraph 1 5 ⟨1, 0, "v1", false, none⟩ rfl).1 rfl⟩

/-- Claim C10: an agent already holding a vertex cannot re-reserve it:
when the occupant equals the requesting agent, `reserve_vertex` takes the
failure branch and leaves the store unchanged. -/
theorem reserve_vertex_not_idempotent (g : NavGraph) (vid a : Nat) (v : Vertex)
    (h : g.vertices[vid]? = some v) (ho : v.occupying_robot = some a) :
    reserve_vertex g vid a = (false, g) := by
  simp [reserve_vertex, h, ho]

/-- Witness for C10: vertex 0 of the sample graph is held by agent 0, and
agent 0's own re-reservation fails with the store unchanged. -/
theorem reserve_vertex_not_idempotent_witness :
    sampleGraph.vertices[0]? = some ⟨0, 0, "v0", false, some 0⟩ ∧
    reserve_vertex sampleGraph 0 0 = (false, sampleGraph) :=
  ⟨rfl, reserve_vertex_not_idempotent sampleGraph 0 0 ⟨0, 0, "v0", false, some 0⟩ rfl rfl⟩

/-- Claim C7: `release_vertex` clears the occupant iff it equals the
caller, and is otherwise a no-op (already free, or held by another agent);
`release_lane` does the same per lane, touching no vertex and no lane with
a different key. -/
theorem release_spec (g : NavGraph) (vid f t rid : Nat) (v : Vertex)
    (h : g.vertices[vid]? = some v) :
    (v.occupying_robot = some rid →
      release_vertex g vid rid =
        { g with vertices := g.vertices.set vid { v with occupying_robot := none } }) ∧
    (v.occupying_robot ≠ some rid → release_vertex g vid rid = g) ∧
    (release_lane g f t rid).vertices = g.vertices ∧
    (∀ (i : Nat) (l : Lane), g.lanes[i]? = some l →
      (l.from_vertex = f ∧ l.to_vertex = t ∧ l.occupying_robot = some rid →
        (release_lane g f t rid).lanes[i]? = some { l with occupying_robot := none }) ∧
      (¬(l.from_vertex = f ∧ l.to_vertex = t ∧ l.occupying_robot = some rid) →
        (release_lane g f t rid).lanes[i]? = some l)) := by
  refine ⟨?_, ?_, rfl, ?_⟩
  · intro ho
    simp [release_vertex, h, ho]
  · intro ho
    simp [release_vertex, h, ho]
  · intro i l hl
    constructor
    · intro hc
      simp [release_lane, List.getElem?_map, hl, hc]
    · intro hc
      simp only [release_lane, List.getElem?_map, hl, Option.map_some']
      rw [if_neg hc]

/-- Witness for C7: in the sample graph, agent 0 releases vertex 0 it
holds, and lane 1→0 held by agent 7 is released by agent 7. -/
theorem release_spec_witness :
    sampleGraph.vertices[0]? = some ⟨0, 0, "v0", false, some 0⟩ ∧
    release_vertex sampleGraph 0 0 =
      { sampleGraph with vertices :=
          sampleGraph.vertices.set 0 ⟨0, 0, "v0", false, none⟩ } ∧
    (release_lane sampleGraph 1 0 7).vertices = sampleGraph.vertices ∧
    (release_lane sampleGraph 1 0 7).lanes[2]? = some ⟨1, 0, 0, none, false⟩ :=
  ⟨rfl,
    (release_spec sampleGraph 0 1 0 0 ⟨0, 0, "v0", false, some 0⟩ rfl).1 rfl,
    (release_spec sampleGraph 0 1 0 7 ⟨0, 0, "v0", false, some 0⟩ rfl).2.2.1,
    ((release_spec sampleGraph 0 1 0 7 ⟨0, 0, "v0", false, some 0⟩ rfl).2.2.2
        2 ⟨1, 0, 0, some 7, false⟩ rfl).1 (by decide)⟩

/-- Claim C8: the observable effect of `update` (resulting robot, store and
status) does not depend on the `delta_time` argument. -/
theorem update_delta_time_irrelevant (r : Robot) (g : NavGraph) (d1 d2 : ℚ) :
    update r g d1 = update r g d2 :=
  rfl

/-- Claim C9: a robot in `Charging` whose path is empty or fully traversed
is left untouched by `update` (robot, store, and after any number of
ticks), and `assign_task` rejects it unchanged: it never leaves
`Charging`. -/
theorem charging_robot_stuck (r : Robot) (g : NavGraph) (dest : Nat) (d : ℚ)
    (h1 : r.state = RobotState.charging)
    (h2 : r.path = [] ∨ r.path.length - 1 ≤ r.current_path_index) :
    update r g d = (r, g, ⟨r.id, RobotState.charging, r.current_vertex, none⟩) ∧
    assign_task r g dest = (false, r) ∧
    ∀ n, updateIter d n (r, g) = (r, g) := by
  have hguard : ¬(r.path ≠ [] ∧ r.current_path_index < r.path.length - 1) := by
    rcases h2 with h2 | h2
    · intro hc
      exact hc.1 h2
    · intro hc
      exact absurd hc.2 (Nat.not_lt.mpr h2)
  have hstep : update r g d = (r, g, ⟨r.id, RobotState.charging, r.current_vertex, none⟩) := by
    rw [update, if_neg, if_neg hguard, h1]
    rw [h1]
    simp
  refine ⟨hstep, ?_, ?_⟩
  · simp [assign_task, h1]
  · intro n
    induction n with
    | zero => rfl
    | succ k ih =>
      rw [updateIter, hstep]
      exact ih

/-- Witness for C9: the charging robot of the fixtures (empty path) is
frozen by `update`, rejected by `assign_task`, and unchanged after any
number of ticks. -/
theorem charging_robot_stuck_witness :
    chargingRobot.state = RobotState.charging ∧ chargingRobot.path = [] ∧
    update chargingRobot sampleGraph 1 =
      (chargingRobot, sampleGraph, ⟨2, RobotState.charging, 2, none⟩) ∧
    assign_task chargingRobot sampleGraph 0 = (false, chargingRobot) ∧
    ∀ n, updateIter 1 n (chargingRobot, sampleGraph) = (chargingRobot, sampleGraph) := by
  have h := charging_robot_stuck chargingRobot sampleGraph 0 1 rfl (Or.inl rfl)
  exact ⟨rfl, rfl, h.1, h.2.1, h.2.2⟩

/-- Claim C2: in the `Moving` state (with a hop in progress,
`current_path_index + 1` inside the path), an `update` tick either arrives
— remaining distance below the step length: index advances by one, the
traversed lane is released, the arrived vertex reservation is attempted
with its result discarded, `current_vertex` becomes the arrived vertex,
and the state becomes `Completed` at the last path position and `Idle`
otherwise — or moves one step closer and stays `Moving`. -/
theorem update_moving_spec (r : Robot) (g : NavGraph) (d : ℚ) (pv nv : Nat)
    (hs : r.state = RobotState.moving)
    (hp : r.path[r.current_path_index]? = some pv)
    (hn : r.path[r.current_path_index + 1]? = some nv) :
    (r.distToTarget < r.move_speed → r.current_path_index + 1 = r.path.length - 1 →
      update r g d =
        ({ r with current_path_index := r.current_path_index + 1, current_vertex := nv,
                  distToTarget := 0, state := RobotState.completed },
          (reserve_vertex (release_lane g pv nv r.id) nv r.id).2,
          ⟨r.id, RobotState.completed, r.current_vertex, some RobotEvent.reached_destination⟩)) ∧
    (r.distToTarget < r.move_speed → r.current_path_index + 1 ≠ r.path.length - 1 →
      update r g d =
        ({ r with current_path_index := r.current_path_index + 1, current_vertex := nv,
                  distToTarget := 0, state := RobotState.idle },
          (reserve_vertex (release_lane g pv nv r.id) nv r.id).2,
          ⟨r.id, RobotState.idle, r.current_vertex, some (RobotEvent.arrived_at nv)⟩)) ∧
    (¬ r.distToTarget < r.move_speed →
      update r g d =
        ({ r with distToTarget := r.distToTarget - r.move_speed }, g,
          ⟨r.id, RobotState.moving, r.current_vertex, none⟩)) := by
  have hlen : r.current_path_index + 1 < r.path.length := (List.getElem?_eq_some_iff.mp hn).1
  have hguard : r.path ≠ [] ∧ r.current_path_index < r.path.length - 1 := by
    constructor
    · intro hnil
      rw [hnil] at hlen
      simp at hlen
    · omega
  have hgetn : r.path.getD (r.current_path_index + 1) 0 = nv := by
    rw [List.getD_eq_getElem?_getD, hn]
    rfl
  have hgetp : r.path.getD (r.current_path_index + 1 - 1) 0 = pv := by
    simp only [Nat.add_sub_cancel]
    rw [List.getD_eq_getElem?_getD, hp]
    rfl
  refine ⟨?_, ?_, ?_⟩
  · intro hd hlast
    rw [update, if_neg (by simp [hs]), if_pos hguard, if_neg (by simp [hs]),
      if_pos hs, if_pos hd]
    simp only [hgetn, hgetp]
    rw [if_pos hlast]
  · intro hd hlast
    rw [update, if_neg (by simp [hs]), if_pos hguard, if_neg (by simp [hs]),
      if_pos hs, if_pos hd]
    simp only [hgetn, hgetp]
    rw [if_neg hlast]
  · intro hd
    rw [update, if_neg (by simp [hs]), if_pos hguard, if_neg (by simp [hs]),
      if_pos hs, if_neg hd, hs]

/-- Witness for C2: the fixture moving robot (remaining distance 1 < step
2, hop 0→1 of path `[0, 1, 2]`, not the last hop) arrives at vertex 1 and
goes `Idle`; the far one (distance 9) steps to distance 7 and stays
`Moving`. -/
theorem update_moving_spec_witness :
    movingRobot.state = RobotState.moving ∧
    movingRobot.path[movingRobot.current_path_index]? = some 0 ∧
    movingRobot.path[movingRobot.current_path_index + 1]? = some 1 ∧
    movingRobot.distToTarget < movingRobot.move_speed ∧
    update movingRobot sampleGraph 1 =
      ({ movingRobot with current_path_index := 1, current_vertex := 1,
                          distToTarget := 0, state := RobotState.idle },
        (reserve_vertex (release_lane sampleGraph 0 1 0) 1 0).2,
        ⟨0, RobotState.idle, 0, some (RobotEvent.arrived_at 1)⟩) ∧
    update farMovingRobot sampleGraph 1 =
      ({ farMovingRobot with distToTarget := 7 }, sampleGraph,
        ⟨0, RobotState.moving, 0, none⟩) := by
  refine ⟨rfl, rfl, rfl, by decide, ?_, ?_⟩
  · exact (update_moving_spec movingRobot sampleGraph 1 0 1 rfl rfl rfl).2.1
      (by decide) (by decide)
  · have h := (update_moving_spec farMovingRobot sampleGraph 1 0 1 rfl rfl rfl).2.2 (by decide)
    rw [h]
    norm_num [Prod.ext_iff, Robot.mk.injEq, farMovingRobot]

/-- Claim C5, counterexample: the idle fixture robot at vertex 0 (not a
charger) is assigned its own vertex as destination; the assignment
succeeds with the one-element path, but the following `update` leaves the
robot `Idle`, not `Completed`. -/
theorem assign_task_self_destination_counterexample :
    idleRobot.state = RobotState.idle ∧
    idleRobot.current_vertex = 0 ∧
    (assign_task idleRobot sampleGraph 0).1 = true ∧
    (assign_task idleRobot sampleGraph 0).2.path = [0] ∧
    (update (assign_task idleRobot sampleGraph 0).2 sampleGraph 1).1.state = RobotState.idle ∧
    (update (assign_task idleRobot sampleGraph 0).2 sampleGraph 1).1.state ≠
      RobotState.completed := by
  refine ⟨rfl, rfl, rfl, rfl, rfl, ?_⟩
  decide

/-- Claim C5 as amended: assigning a robot in `Idle` or `Completed` its
own current vertex (present in the store) succeeds with the one-element
path and forces `Idle`; one subsequent `update` leaves the store untouched
and puts the robot in `Charging` when the vertex is a charger and `Idle`
otherwise — never in `Completed`. -/
theorem assign_task_self_destination (r : Robot) (g : NavGraph) (v : Vertex) (d : ℚ)
    (hs : r.state = RobotState.idle ∨ r.state = RobotState.completed)
    (hv : g.vertices[r.current_vertex]? = some v) :
    assign_task r g r.current_vertex =
      (true, { r with path := [r.current_vertex], current_path_index := 0,
                      target_vertex := some r.current_vertex, state := RobotState.idle }) ∧
    ((update (assign_task r g r.current_vertex).2 g d).1.state =
      if v.isCharger then RobotState.charging else RobotState.idle) ∧
    (update (assign_task r g r.current_vertex).2 g d).1.state ≠ RobotState.completed ∧
    (update (assign_task r g r.current_vertex).2 g d).2.1 = g := by
  have hcv : r.current_vertex < g.vertices.length := (List.getElem?_eq_some_iff.mp hv).1
  have hpath : get_shortest_path g r.current_vertex r.current_vertex =
      some [r.current_vertex] := by
    rw [get_shortest_path, if_pos ⟨hcv, hcv⟩]
    simp [bfsLoop]
  have hassign : assign_task r g r.current_vertex =
      (true, { r with path := [r.current_vertex], current_path_index := 0,
                      target_vertex := some r.current_vertex, state := RobotState.idle }) := by
    rcases hs with hs | hs <;> simp [assign_task, hs, hpath]
  have hch : isChargerAt g r.current_vertex = v.isCharger := by
    simp [isChargerAt, hv]
  refine ⟨hassign, ?_, ?_, ?_⟩ <;>
    rw [hassign] <;>
    cases hic : v.isCharger <;>
    simp [update, isChargerAt, hv, hic]

/-- Witness for C5's amended claim: the idle fixture robot assigned to its
own vertex 0 ends the next tick `Idle` (vertex 0 is not a charger). -/
theorem assign_task_self_destination_witness :
    idleRobot.state = RobotState.idle ∧
    sampleGraph.vertices[idleRobot.current_vertex]? = some ⟨0, 0, "v0", false, some 0⟩ ∧
    assign_task idleRobot sampleGraph idleRobot.current_vertex =
      (true, { idleRobot with path := [0], current_path_index := 0,
                              target_vertex := some 0, state := RobotState.idle }) ∧
    (update (assign_task idleRobot sampleGraph idleRobot.current_vertex).2
        sampleGraph 1).1.state ≠ RobotState.completed :=
  ⟨rfl, rfl,
    (assign_task_self_destination idleRobot sampleGraph ⟨0, 0, "v0", false, some 0⟩ 1
      (Or.inl rfl) rfl).1,
    (assign_task_self_destination idleRobot sampleGraph ⟨0, 0, "v0", false, some 0⟩ 1
      (Or.inl rfl) rfl).2.2.1⟩

/-- Claim C6: spawning at an occupied vertex fails and changes nothing;
spawning at a free vertex registers a robot carrying the next sequential
id (constructed by `robotInit`, which reserves the spawn vertex), returns
that id, bumps the counter, and afterwards the spawn vertex is occupied by
the new robot while the lanes are untouched. -/
theorem spawn_robot_spec (fm : FleetManager) (g : NavGraph) (vid : Nat) (v : Vertex)
    (hv : g.vertices[vid]? = some v) :
    (v.occupying_robot ≠ none → spawn_robot fm g vid = (none, fm, g)) ∧
    (v.occupying_robot = none →
      spawn_robot fm g vid =
        (some fm.next_robot_id,
          ⟨fm.robots ++ [⟨fm.next_robot_id, vid,
              robot_colors.getD (fm.next_robot_id % robot_colors.length) (0, 0, 0),
              RobotState.idle, [], 0, none, 0, 2⟩],
            fm.next_robot_id + 1⟩,
          { g with vertices :=
              g.vertices.set vid { v with occupying_robot := some fm.next_robot_id } }) ∧
      (spawn_robot fm g vid).2.2.vertices[vid]? =
        some { v with occupying_robot := some fm.next_robot_id } ∧
      (spawn_robot fm g vid).2.2.lanes = g.lanes) := by
  have hvlen : vid < g.vertices.length := (List.getElem?_eq_some_iff.mp hv).1
  constructor
  · intro ho
    simp [spawn_robot, hv, ho]
  · intro ho
    have hmain : spawn_robot fm g vid =
        (some fm.next_robot_id,
          ⟨fm.robots ++ [⟨fm.next_robot_id, vid,
              robot_colors.getD (fm.next_robot_id % robot_colors.length) (0, 0, 0),
              RobotState.idle, [], 0, none, 0, 2⟩],
            fm.next_robot_id + 1⟩,
          { g with vertices :=
              g.vertices.set vid { v with occupying_robot := some fm.next_robot_id } }) := by
      simp [spawn_robot, hv, ho, robotInit, reserve_vertex]
    refine ⟨hmain, ?_, ?_⟩
    · rw [hmain, List.getElem?_set]
      simp [hvlen]
    · rw [hmain]

/-- Witness for C6: spawning on the free vertex 1 of the sample graph from
an empty registry yields robot 0 occupying vertex 1. -/
theorem spawn_robot_spec_witness :
    sampleGraph.vertices[1]? = some ⟨1, 0, "v1", false, none⟩ ∧
    spawn_robot emptyFleet sampleGraph 1 =
      (some 0,
        ⟨[⟨0, 1, (255, 0, 0), RobotState.idle, [], 0, none, 0, 2⟩], 1⟩,
        { sampleGraph with vertices :=
            sampleGraph.vertices.set 1 ⟨1, 0, "v1", false, some 0⟩ }) ∧
    (spawn_robot emptyFleet sampleGraph 1).2.2.vertices[1]? =
      some ⟨1, 0, "v1", false, some 0⟩ :=
  ⟨rfl,
    ((spawn_robot_spec emptyFleet sampleGraph 1 ⟨1, 0, "v1", false, none⟩ rfl).2 rfl).1,
    ((spawn_robot_spec emptyFleet sampleGraph 1 ⟨1, 0, "v1", false, none⟩ rfl).2 rfl).2.1⟩

/-- A conditional rewrite map leaves a list unchanged when no element
satisfies the condition. -/
theorem map_ite_id (P : Lane → Prop) [DecidablePred P] (φ : Lane → Lane) (lanes : List Lane)
    (h : ∀ l ∈ lanes, ¬ P l) :
    lanes.map (fun l => if P l then φ l else l) = lanes := by
  induction lanes with
  | nil => rfl
  | cons a as ih =>
    simp only [List.map_cons]
    rw [if_neg (h a (by simp)), ih (fun l hl => h l (by simp [hl]))]

/-- When `reserve_lane_list` fails it has written nothing. -/
theorem reserve_lane_list_false (lanes : List Lane) (f t rid : Nat)
    (h : (reserve_lane_list lanes f t rid).1 = false) :
    (reserve_lane_list lanes f t rid).2 = lanes := by
  induction lanes with
  | nil => rfl
  | cons a as ih =>
    by_cases hk : a.from_vertex = f ∧ a.to_vertex = t
    · by_cases ha : a.occupying_robot = none ∧ a.is_blocked = false
      · rw [reserve_lane_list, if_pos hk, if_pos ha] at h
        simp at h
      · rw [reserve_lane_list, if_pos hk, if_neg ha]
    · rw [reserve_lane_list, if_neg hk] at h ⊢
      simp only at h ⊢
      rw [ih h]

/-- Under pairwise-distinct lane keys, `reserve_lane_list` succeeds iff an
unoccupied, unblocked lane with the requested key is in the list. -/
theorem reserve_lane_list_true_iff (lanes : List Lane) (f t rid : Nat)
    (hnd : laneKeysNodup lanes) :
    (reserve_lane_list lanes f t rid).1 = true ↔
      ∃ l ∈ lanes, l.from_vertex = f ∧ l.to_vertex = t ∧
        l.occupying_robot = none ∧ l.is_blocked = false := by
  induction lanes with
  | nil => simp [reserve_lane_list]
  | cons a as ih =>
    rw [laneKeysNodup, List.map_cons, List.nodup_cons] at hnd
    by_cases hk : a.from_vertex = f ∧ a.to_vertex = t
    · by_cases ha : a.occupying_robot = none ∧ a.is_blocked = false
      · rw [reserve_lane_list, if_pos hk, if_pos ha]
        simp only [true_iff]
        exact ⟨a, by simp, hk.1, hk.2, ha.1, ha.2⟩
      · rw [reserve_lane_list, if_pos hk, if_neg ha]
        simp only [Bool.false_eq_true, false_iff]
        rintro ⟨l, hl, h1, h2, h3, h4⟩
        rcases List.mem_cons.mp hl with hl | hl
        · exact ha ⟨hl ▸ h3, hl ▸ h4⟩
        · exact hnd.1 (List.mem_map.mpr ⟨l, hl, by rw [h1, h2, hk.1, hk.2]⟩)
    · rw [reserve_lane_list, if_neg hk]
      simp only
      rw [ih hnd.2]
      constructor
      · rintro ⟨l, hl, hrest⟩
        exact ⟨l, by simp [hl], hrest⟩
      · rintro ⟨l, hl, h1, h2, h3, h4⟩
        rcases List.mem_cons.mp hl with hl | hl
        · exact absurd ⟨hl ▸ h1, hl ▸ h2⟩ hk
        · exact ⟨l, hl, h1, h2, h3, h4⟩

/-- Under pairwise-distinct lane keys, a successful `reserve_lane_list`
writes the requesting agent into the (unique) matching lane and nothing
else. -/
theorem reserve_lane_list_true_map (lanes : List Lane) (f t rid : Nat)
    (hnd : laneKeysNodup lanes)
    (h : (reserve_lane_list lanes f t rid).1 = true) :
    (reserve_lane_list lanes f t rid).2 = lanes.map (fun l =>
      if l.from_vertex = f ∧ l.to_vertex = t then { l with occupying_robot := some rid }
      else l) := by
  induction lanes with
  | nil => rfl
  | cons a as ih =>
    rw [laneKeysNodup, List.map_cons, List.nodup_cons] at hnd
    by_cases hk : a.from_vertex = f ∧ a.to_vertex = t
    · by_cases ha : a.occupying_robot = none ∧ a.is_blocked = false
      · rw [reserve_lane_list, if_pos hk, if_pos ha]
        simp only [List.map_cons]
        rw [if_pos hk, map_ite_id]
        intro l hl hkey
        exact hnd.1 (List.mem_map.mpr ⟨l, hl, by rw [hkey.1, hkey.2, hk.1, hk.2]⟩)
      · rw [reserve_lane_list, if_pos hk, if_neg ha] at h
        simp at h
    · rw [reserve_lane_list, if_neg hk] at h ⊢
      simp only at h ⊢
      simp only [List.map_cons]
      rw [if_neg hk, ih hnd.2 h]

/-- Under pairwise-distinct lane keys, at most one lane satisfies any
predicate confined to a single key. -/
theorem countP_le_one_of_keysNodup (lanes : List Lane) (f t : Nat)
    (hnd : laneKeysNodup lanes) (p : Lane → Bool)
    (hp : ∀ l, p l = true → l.from_vertex = f ∧ l.to_vertex = t) :
    lanes.countP p ≤ 1 := by
  induction lanes with
  | nil => simp
  | cons a as ih =>
    rw [laneKeysNodup, List.map_cons, List.nodup_cons] at hnd
    rw [List.countP_cons]
    by_cases hpa : p a = true
    · have hzero : as.countP p = 0 := by
        rw [List.countP_eq_zero]
        intro l hl hpl
        have hka := hp a hpa
        have hkl := hp l hpl
        exact hnd.1 (List.mem_map.mpr ⟨l, hl, by rw [hkl.1, hkl.2, hka.1, hka.2]⟩)
      simp [hpa, hzero]
    · simp only [hpa, if_false]
      simpa using ih hnd.2

/-- Claim C3: under distinct lane keys, `reserve_lane` succeeds and writes
the agent into the lane iff a lane with that key exists, is unoccupied and
is not blocked; otherwise it fails changing nothing.  The outcome is
independent of the vertex side of the store — in particular of the
destination vertex's occupancy. -/
theorem reserve_lane_spec (g : NavGraph) (f t rid : Nat)
    (hnd : laneKeysNodup g.lanes) :
    ((reserve_lane g f t rid).1 = true ↔
      ∃ l ∈ g.lanes, l.from_vertex = f ∧ l.to_vertex = t ∧
        l.occupying_robot = none ∧ l.is_blocked = false) ∧
    ((reserve_lane g f t rid).1 = true →
      (reserve_lane g f t rid).2 = { g with lanes := g.lanes.map (fun l =>
        if l.from_vertex = f ∧ l.to_vertex = t then { l with occupying_robot := some rid }
        else l) }) ∧
    ((reserve_lane g f t rid).1 = false → (reserve_lane g f t rid).2 = g) ∧
    (reserve_lane g f t rid).2.vertices = g.vertices ∧
    (∀ vs : List Vertex,
      (reserve_lane { g with vertices := vs } f t rid).1 = (reserve_lane g f t rid).1 ∧
      (reserve_lane { g with vertices := vs } f t rid).2.lanes =
        (reserve_lane g f t rid).2.lanes) := by
  refine ⟨reserve_lane_list_true_iff g.lanes f t rid hnd, ?_, ?_, rfl, fun vs => ⟨rfl, rfl⟩⟩
  · intro h
    show ({ g with lanes := (reserve_lane_list g.lanes f t rid).2 } : NavGraph) = _
    rw [reserve_lane_list_true_map g.lanes f t rid hnd h]
  · intro h
    show ({ g with lanes := (reserve_lane_list g.lanes f t rid).2 } : NavGraph) = g
    rw [reserve_lane_list_false g.lanes f t rid h]

/-- Witness for C3: in the sample graph (distinct lane keys), reserving
lane 0→1 for agent 9 succeeds and writes agent 9 into it, and the result
is the same with every vertex record erased. -/
theorem reserve_lane_spec_witness :
    laneKeysNodup sampleGraph.lanes ∧
    (reserve_lane sampleGraph 0 1 9).1 = true ∧
    (reserve_lane sampleGraph 0 1 9).2 = { sampleGraph with lanes := sampleGraph.lanes.map (fun l =>
      if l.from_vertex = 0 ∧ l.to_vertex = 1 then { l with occupying_robot := some 9 }
      else l) } ∧
    (reserve_lane { sampleGraph with vertices := [] } 0 1 9).1 =
      (reserve_lane sampleGraph 0 1 9).1 := by
  have hnd : laneKeysNodup sampleGraph.lanes := by
    rw [laneKeysNodup]
    decide
  refine ⟨hnd, rfl, ?_, ?_⟩
  · exact (reserve_lane_spec sampleGraph 0 1 9 hnd).2.1 rfl
  · exact ((reserve_lane_spec sampleGraph 0 1 9 hnd).2.2.2.2 []).1

/-- Claim C1: under distinct lane keys, `resolve_deadlocks` returns 0 or
1, never touches a vertex, returns `(0, g)` when no registered robot is
waiting, and otherwise acts only on the first waiting robot in registry
order: every lane whose key is not that robot's next hop is unchanged,
and if the next-hop lane is occupied (in particular by a different agent)
it is cleared and the call returns 1. -/
theorem resolve_deadlocks_spec (robots : List Robot) (g : NavGraph)
    (hnd : laneKeysNodup g.lanes) :
    ((resolve_deadlocks robots g).1 = 0 ∨ (resolve_deadlocks robots g).1 = 1) ∧
    (resolve_deadlocks robots g).2.vertices = g.vertices ∧
    ((∀ r ∈ robots, r.state ≠ RobotState.waiting) → resolve_deadlocks robots g = (0, g)) ∧
    (∀ (w : Robot) (rest : List Robot),
      robots.filter (fun r => r.state = RobotState.waiting) = w :: rest →
      (∀ (i : Nat) (l : Lane), g.lanes[i]? = some l →
        ¬(l.from_vertex = w.current_vertex ∧
          l.to_vertex = w.path.getD (w.current_path_index + 1) 0) →
        (resolve_deadlocks robots g).2.lanes[i]? = some l) ∧
      (w.current_path_index + 1 < w.path.length →
        ∀ (i : Nat) (l : Lane) (j : Nat), g.lanes[i]? = some l →
          l.from_vertex = w.current_vertex →
          l.to_vertex = w.path.getD (w.current_path_index + 1) 0 →
          l.occupying_robot = some j → j ≠ w.id →
          (resolve_deadlocks robots g).1 = 1 ∧
          (resolve_deadlocks robots g).2.lanes[i]? =
            some { l with occupying_robot := none })) := by
  cases hfil : robots.filter (fun r => r.state = RobotState.waiting) with
  | nil =>
    have hres : resolve_deadlocks robots g = (0, g) := by
      simp [resolve_deadlocks, hfil]
    rw [hres]
    refine ⟨Or.inl rfl, rfl, fun _ => rfl, ?_⟩
    intro w rest hfil2
    exact absurd hfil2 (by simp)
  | cons w rest =>
    have hwmem : w ∈ robots ∧ w.state = RobotState.waiting := by
      have : w ∈ robots.filter (fun r => r.state = RobotState.waiting) := by
        rw [hfil]
        simp
      have h2 := List.mem_filter.mp this
      exact ⟨h2.1, by simpa using h2.2⟩
    by_cases hg : w.path ≠ [] ∧ w.current_path_index < w.path.length - 1
    · have hres : resolve_deadlocks robots g =
          (g.lanes.countP (fun l =>
            decide (l.from_vertex = w.current_vertex ∧
              l.to_vertex = w.path.getD (w.current_path_index + 1) 0 ∧
              l.occupying_robot ≠ none)),
            { g with lanes := g.lanes.map (fun l =>
              if l.from_vertex = w.current_vertex ∧
                  l.to_vertex = w.path.getD (w.current_path_index + 1) 0 ∧
                  l.occupying_robot ≠ none then
                { l with occupying_robot := none }
              else l) }) := by
        simp only [resolve_deadlocks, hfil, if_pos hg]
      have hle : (resolve_deadlocks robots g).1 ≤ 1 := by
        rw [hres]
        exact countP_le_one_of_keysNodup g.lanes w.current_vertex
          (w.path.getD (w.current_path_index + 1) 0) hnd _
          (fun l hl => by
            have := of_decide_eq_true hl
            exact ⟨this.1, this.2.1⟩)
      refine ⟨Nat.le_one_iff_eq_zero_or_eq_one.mp hle, by rw [hres], ?_, ?_⟩
      · intro hnone
        exact absurd hwmem.2 (hnone w hwmem.1)
      · intro w2 rest2 hfil2
        injection hfil2 with hw2 hrest2
        subst hw2
        constructor
        · intro i l hl hkey
          rw [hres]
          simp only [List.getElem?_map, hl, Option.map_some']
          rw [if_neg (fun hc => hkey ⟨hc.1, hc.2.1⟩)]
        · intro hlen i l j hl hf ht ho hj
          have hcond : l.from_vertex = w.current_vertex ∧
              l.to_vertex = w.path.getD (w.current_path_index + 1) 0 ∧
              l.occupying_robot ≠ none := ⟨hf, ht, by rw [ho]; simp⟩
          constructor
          · have hge : 1 ≤ (resolve_deadlocks robots g).1 := by
              rw [hres]
              exact List.countP_pos_iff.mpr ⟨l, List.getElem?_mem hl, decide_eq_true hcond⟩
            omega
          · rw [hres]
            simp only [List.getElem?_map, hl, Option.map_some']
            rw [if_pos hcond]
    · have hres : resolve_deadlocks robots g = (0, g) := by
        simp only [resolve_deadlocks, hfil, if_neg hg]
      rw [hres]
      refine ⟨Or.inl rfl, rfl, fun hnone => absurd hwmem.2 (hnone w hwmem.1), ?_⟩
      intro w2 rest2 hfil2
      injection hfil2 with hw2 hrest2
      subst hw2
      refine ⟨fun i l hl _ => hl, ?_⟩
      intro hlen
      exfalso
      apply hg
      constructor
      · intro hnil
        rw [hnil] at hlen
        simp at hlen
      · omega

/-- Witness for C1: with the idle fixture robot first and the waiting one
second (next hop 1→0, lane held by agent 7 ≠ 1), `resolve_deadlocks`
clears lane 1→0, returns 1, and leaves lane 0→1 and all vertices
untouched. -/
theorem resolve_deadlocks_spec_witness :
    laneKeysNodup sampleGraph.lanes ∧
    List.filter (fun r => r.state = RobotState.waiting) [idleRobot, waitingRobot] =
      [waitingRobot] ∧
    (resolve_deadlocks [idleRobot, waitingRobot] sampleGraph).1 = 1 ∧
    (resolve_deadlocks [idleRobot, waitingRobot] sampleGraph).2.lanes[2]? =
      some ⟨1, 0, 0, none, false⟩ ∧
    (resolve_deadlocks [idleRobot, waitingRobot] sampleGraph).2.lanes[0]? =
      some ⟨0, 1, 0, none, false⟩ ∧
    (resolve_deadlocks [idleRobot, waitingRobot] sampleGraph).2.vertices =
      sampleGraph.vertices := by
  have hnd : laneKeysNodup sampleGraph.lanes := by
    rw [laneKeysNodup]
    decide
  have h := resolve_deadlocks_spec [idleRobot, waitingRobot] sampleGraph hnd
  have hparts := h.2.2.2 waitingRobot [] rfl
  have hclear := hparts.2 (by decide) 2 ⟨1, 0, 0, some 7, false⟩ 7 rfl rfl (by decide) rfl
    (by decide)
  have hother := hparts.1 0 ⟨0, 1, 0, none, false⟩ rfl (by decide)
  exact ⟨hnd, rfl, hclear.1, hclear.2, hother, h.2.1⟩

end FleetSim
